import Mathlib

/-!
Verification of the GUGiK HTTP client (`app/core/gugik_client.py`).

The file shallowly embeds the four operations the specification covers:
the request/retry engine (`get_request`), the streaming downloader
(`download_file`), the filename classifier (`_generate_filename`, here
`generate_filename`), and the capability-document layer extractor
(`get_wms_layers`).  HTTP transport, the socket-based connectivity probe,
the filesystem and the cancellation callback are abstracted into explicit
oracles (functions from attempt/iteration indices to results), and each
operation is a pure Lean function over those oracles, translated
branch-for-branch from the Python source.
-/

namespace Gugik

/-! ## String helpers

Python string primitives used by the source, re-implemented by structural
recursion over `List Char` so that every definition reduces in the kernel.
-/

/-- Python `s.split(sep)` for a one-character separator, on character lists.
`splitChar '/' "a/b" = ["a","b"]`, `splitChar '/' "" = [""]`,
`splitChar '/' "a/" = ["a",""]`. -/
def splitChar (sep : Char) : List Char → List (List Char)
  | [] => [[]]
  | c :: cs =>
    let r := splitChar sep cs
    if c = sep then [] :: r
    else
      match r with
      | [] => [[c]]
      | h :: t => (c :: h) :: t

/-- Python `'c' in s` (membership of a single character). -/
def strHasChar (c : Char) (s : String) : Bool :=
  s.toList.contains c

/-- `startsWithChars sub l` is true when `l` begins with `sub`. -/
def startsWithChars : List Char → List Char → Bool
  | [], _ => true
  | _ :: _, [] => false
  | a :: as, b :: bs => a = b && startsWithChars as bs

/-- `hasSubChars sub l` is true when `sub` occurs contiguously inside `l`. -/
def hasSubChars (sub : List Char) : List Char → Bool
  | [] => startsWithChars sub []
  | c :: cs => startsWithChars sub (c :: cs) || hasSubChars sub cs

/-- Python `sub in s` (substring containment). -/
def containsSub (s sub : String) : Bool :=
  hasSubChars sub.toList s.toList

/-- Python `url.split('/')`. -/
def pySegs (url : String) : List String :=
  (splitChar '/' url.toList).map (fun l => String.mk l)

/-- Python `file_name.split('?')[-1]`: the part after the last `?`. -/
def afterQuery (fn : String) : String :=
  ((splitChar '?' fn.toList).map (fun l => String.mk l)).getLastD ""

/-- Python `s.replace('=', '_')` (single-character pattern). -/
def replaceEq (s : String) : String :=
  String.mk (s.toList.map (fun c => if c = '=' then '_' else c))

/-! ## Filename classifier

Embedding of `GugikHttpClient._generate_filename`.  Python raises
`IndexError` when a positional segment index is out of range; the embedding
returns `none` there, and `some filename` on the normal paths.
-/

/-- The baseline filename: `url.split('/')[-1]`, and if it contains `?`,
the part after `?` with `=` replaced by `_` plus a `.zip` extension. -/
def baselineName (url : String) : String :=
  if strHasChar '?' ((pySegs url).getLastD "") then
    replaceEq (afterQuery ((pySegs url).getLastD "")) ++ ".zip"
  else (pySegs url).getLastD ""

/-- The `Budynki3D` branch's LOD marker prefixes: `file_name` after the
inner `if 'LOD1' in url / elif 'LOD2' in url` of `_generate_filename`. -/
def budynkiName (url : String) : String :=
  if containsSub url "LOD1" then "Budynki_3D_LOD1_" ++ baselineName url
  else if containsSub url "LOD2" then "Budynki_3D_LOD2_" ++ baselineName url
  else baselineName url

/-- Embedding of `_generate_filename`.  The `if`/`elif` chain is translated
in source order; `none` models an `IndexError` on `url.split('/')[i]`. -/
def generate_filename (url : String) : Option String :=
  if containsSub url "Budynki3D" then
    if (pySegs url).length = 9 then
      match (pySegs url)[6]? with
      | some seg => some (seg ++ "_" ++ budynkiName url)
      | none => none
    else some (budynkiName url)
  else if containsSub url "PRG" then some ("PRG_" ++ baselineName url)
  else if containsSub url "bdot10k" && !containsSub url "Archiwum" then
    some ("bdot10k_" ++ baselineName url)
  else if containsSub url "Archiwum" && containsSub url "bdot10k" then
    match (pySegs url)[5]? with
    | some seg => some ("archiwalne_bdot10k_" ++ seg ++ "_" ++ baselineName url)
    | none => none
  else if containsSub url "bdoo" then
    match (pySegs url)[4]? with
    | some seg => some ("bdoo_" ++ "rok" ++ seg ++ "_" ++ baselineName url)
    | none => none
  else if containsSub url "ZestawieniaZbiorczeEGiB" then
    match (pySegs url)[4]? with
    | some seg => some ("ZestawieniaZbiorczeEGiB_" ++ "rok" ++ seg ++ "_" ++ baselineName url)
    | none => none
  else if containsSub url "osnowa" then some ("podstawowa_osnowa_" ++ baselineName url)
  else some (baselineName url)

/-! ## Request/retry engine

Embedding of `GugikHttpClient.get_request`.  The HTTP transport is an
oracle `tr : Nat → HttpReply` giving the behaviour of the k-th GET actually
performed, and the connectivity probe is an oracle `conn : Nat → Bool`
giving the result of the k-th `_is_internet_connected()` call.  The Python
loop `while attempt <= max_attempts` runs at most `max_attempts + 1`
iterations, each performing one probe and (if connected) one GET; only a
`ConnectionError` advances `attempt` (after a 2-second sleep).
-/

/-- Behaviour of one GET: a completed exchange with a status code and body,
or a connection-level failure (`requests.exceptions.ConnectionError`). -/
inductive HttpReply where
  | reply (status : Nat) (body : String)
  | connFailure
deriving DecidableEq, Repr

/-- Outcome of `get_request`, mirroring its `Tuple[bool, str]` results:
`success body` is `(True, response.text)`; the three error constructors are
`(False, 'Połączenie zostało przerwane')`, `(False, f'Błąd {code}')` and
`(False, 'Przekroczono maksymalną liczbę prób')` respectively. -/
inductive ReqOutcome where
  | success (body : String)
  | errInterrupted
  | errStatus (code : Nat)
  | errMaxAttempts
deriving DecidableEq, Repr

/-- Result of `get_request` together with instrumentation: how many GETs
were performed and how many 2-second backoff sleeps were taken. -/
structure ReqResult where
  outcome : ReqOutcome
  attemptsMade : Nat
  sleeps : Nat
deriving DecidableEq, Repr

/-- The `while attempt <= max_attempts` loop of `get_request`; `fuel` is the
number of loop iterations still allowed (`max_attempts + 1 - attempt`) and
`k` the current iteration index. -/
def getLoop (conn : Nat → Bool) (tr : Nat → HttpReply) : Nat → Nat → ReqResult
  | _, 0 => { outcome := .errMaxAttempts, attemptsMade := 0, sleeps := 0 }
  | k, fuel + 1 =>
    if conn k = false then
      { outcome := .errInterrupted, attemptsMade := 0, sleeps := 0 }
    else
      match tr k with
      | .reply s b =>
        if s = 200 then { outcome := .success b, attemptsMade := 1, sleeps := 0 }
        else { outcome := .errStatus s, attemptsMade := 1, sleeps := 0 }
      | .connFailure =>
        let r := getLoop conn tr (k + 1) fuel
        { outcome := r.outcome, attemptsMade := r.attemptsMade + 1, sleeps := r.sleeps + 1 }

/-- Embedding of `get_request(params, url, max_attempts)`.  `params` and
`url` are absorbed into the transport oracle. -/
def get_request (conn : Nat → Bool) (tr : Nat → HttpReply) (maxAttempts : Nat) : ReqResult :=
  getLoop conn tr 0 (maxAttempts + 1)

/-! ## Streaming downloader

Embedding of `GugikHttpClient.download_file`.  The streamed response body
is a list of `Chunk`s: `data n` is a chunk of `n` bytes yielded by
`iter_content`, and `streamErr` models a `ConnectionError` or
`ChunkedEncodingError` raised while fetching the next chunk.  `cancel k`
is the result of the k-th `cancel_check()` call, `conn k` the probe result
if the k-th iteration probes, and `writeOk k` whether the k-th `f.write`
succeeds (`false` models an `IOError`).  The filesystem is tracked only at
the destination path: `fileExists0` says whether a file is already there
when the call starts.
-/

/-- One item produced while iterating the streamed response body. -/
inductive Chunk where
  | data (n : Nat)
  | streamErr
deriving DecidableEq, Repr

/-- Oracles and initial state for one `download_file` call. -/
structure DlEnv where
  /-- `response.status_code` of the streamed GET. -/
  status : Nat
  /-- `session.get(..., stream=True)` itself raises `ConnectionError`. -/
  connectFail : Bool
  /-- The streamed response body. -/
  chunks : List Chunk
  /-- Whether a `cancel_check` callback was supplied. -/
  hasCancel : Bool
  /-- Result of the cancel callback at iteration `k`. -/
  cancel : Nat → Bool
  /-- Result of `_is_internet_connected()` at iteration `k`, if probed. -/
  conn : Nat → Bool
  /-- Whether the `f.write(chunk)` of iteration `k` succeeds. -/
  writeOk : Nat → Bool
  /-- Whether a file already exists at the destination path. -/
  fileExists0 : Bool

/-- How a `download_file` call ended, mirroring its returned pairs:
`ok` is `(True, path)`; `notFound` is `(False, 'Plik nie istnieje')`;
`cancelled` is `(False, 'Pobieranie anulowane')`; `interrupted` is
`(False, 'Połączenie zostało przerwane')` (probe failure, connection
error or chunked-encoding error); `writeError` is
`(False, 'Błąd zapisu pliku')`. -/
inductive DlStatus where
  | ok
  | notFound
  | cancelled
  | interrupted
  | writeError
deriving DecidableEq, Repr

/-- Result of a `download_file` call: the outcome, the final filesystem
state at the destination path, the byte counter, and a trace with one
entry per loop iteration that reached the probe decision, recording the
`downloaded` value there and whether the prober was invoked. -/
structure DlResult where
  reason : DlStatus
  fileExists : Bool
  fileBytes : Nat
  downloaded : Nat
  trace : List (Nat × Bool)
deriving DecidableEq, Repr

/-- `(True, path)` versus `(False, reason)`. -/
def DlResult.success (r : DlResult) : Bool :=
  r.reason = DlStatus.ok

/-- The `for chunk in response.iter_content(chunk_size=8192)` loop of
`download_file`.  `k` is the iteration index, `d` the `downloaded`
counter, `fb` the bytes in the destination file so far and `tr` the
probe trace accumulated so far.  Cleanup (`_cleanup_file`) sets
`fileExists := false`; the `IOError` handler performs no cleanup. -/
def dlLoop (env : DlEnv) : List Chunk → Nat → Nat → Nat → List (Nat × Bool) → DlResult
  | [], _, d, fb, tr =>
    { reason := .ok, fileExists := true, fileBytes := fb, downloaded := d, trace := tr }
  | .streamErr :: _, _, d, _, tr =>
    { reason := .interrupted, fileExists := false, fileBytes := 0, downloaded := d, trace := tr }
  | .data n :: rest, k, d, fb, tr =>
    if env.hasCancel && env.cancel k then
      { reason := .cancelled, fileExists := false, fileBytes := 0, downloaded := d, trace := tr }
    else if decide (d % 10000000 = 0) && !env.conn k then
      { reason := .interrupted, fileExists := false, fileBytes := 0, downloaded := d,
        trace := tr ++ [(d, decide (d % 10000000 = 0))] }
    else if env.writeOk k = false then
      { reason := .writeError, fileExists := true, fileBytes := fb, downloaded := d,
        trace := tr ++ [(d, decide (d % 10000000 = 0))] }
    else
      dlLoop env rest (k + 1) (d + n) (fb + n) (tr ++ [(d, decide (d % 10000000 = 0))])

/-- Embedding of `download_file(url, dest_folder, progress_callback,
cancel_check)`.  A failing streamed GET hits the `ConnectionError` handler
(cleanup, then `(False, 'Połączenie zostało przerwane')`); a 404 returns
before touching the filesystem; otherwise any pre-existing file is removed,
the destination file is created empty and the chunk loop runs. -/
def download_file (env : DlEnv) : DlResult :=
  if env.connectFail then
    { reason := .interrupted, fileExists := false, fileBytes := 0, downloaded := 0, trace := [] }
  else if env.status = 404 then
    { reason := .notFound, fileExists := env.fileExists0, fileBytes := 0, downloaded := 0,
      trace := [] }
  else
    dlLoop env env.chunks 0 0 0 []

/-! ## Capability-document layer extractor

Embedding of the traversal stage of `GugikHttpClient.get_wms_layers`
(the un-namespaced path: `root.findall(".//Layer")`, then
`layer.find("Name")`, keeping non-empty texts, then
`list(dict.fromkeys(layers))`).  The HTTP fetch and lenient XML parse are
outside the model; the input is the parsed element tree.
-/

mutual
/-- A parsed XML element: tag, text content (`""` models both an absent
and an empty text node, which Python treats identically here), and
children in document order. -/
inductive Xml where
  | mk (tag : String) (text : String) (children : XmlList)
/-- Children of an element, in document order. -/
inductive XmlList where
  | nil
  | cons (head : Xml) (tail : XmlList)
end

/-- The element's tag. -/
def Xml.tag : Xml → String
  | .mk t _ _ => t

/-- The element's text content. -/
def Xml.text : Xml → String
  | .mk _ tx _ => tx

/-- The element's children. -/
def Xml.children : Xml → XmlList
  | .mk _ _ cs => cs

mutual
/-- All proper descendants of an element, in document order
(like `element.iter()` minus the element itself). -/
def descend : Xml → List Xml
  | .mk _ _ cs => descendList cs
/-- Descendants contributed by a child list: each child followed by its
own descendants, then the later children. -/
def descendList : XmlList → List Xml
  | .nil => []
  | .cons x xs => x :: (descend x ++ descendList xs)
end

/-- Python `layer.find("Name")`: the first direct child tagged `Name`. -/
def findNameChild : XmlList → Option Xml
  | .nil => none
  | .cons x xs => if x.tag = "Name" then some x else findNameChild xs

/-- The raw `layers` list built by `get_wms_layers` before deduplication:
for each descendant `Layer` element (document order), the text of its
first `Name` child when that child exists and its text is non-empty. -/
def collectNames (doc : Xml) : List String :=
  (descend doc).filterMap fun e =>
    if e.tag = "Layer" then
      match findNameChild e.children with
      | some n => if n.text = "" then none else some n.text
      | none => none
    else none

/-- Python `list(dict.fromkeys(layers))`: keep the first occurrence of
each element, preserving order.  `seen` accumulates the keys met so far. -/
def dedupFrom (seen : List String) : List String → List String
  | [] => []
  | x :: xs => if x ∈ seen then dedupFrom seen xs else x :: dedupFrom (x :: seen) xs

/-- Embedding of the extraction stage of `get_wms_layers`. -/
def get_wms_layers (doc : Xml) : List String :=
  dedupFrom [] (collectNames doc)

/-- Modelled from the spec: "remove duplicates keeping the first
occurrence", written directly as a left fold that appends each value the
first time it is seen.  Used to compare the code's
`list(dict.fromkeys(...))` against the spec's words. -/
def dedupKeepFirst (l : List String) : List String :=
  l.foldl (fun acc x => if x ∈ acc then acc else acc ++ [x]) []

/-! ## Concrete runs used as counterexamples and witnesses -/

/-- A 404 response while a file already sits at the destination path. -/
def envC1a : DlEnv :=
  { status := 404, connectFail := false, chunks := [], hasCancel := false,
    cancel := fun _ => false, conn := fun _ => true, writeOk := fun _ => true,
    fileExists0 := true }

/-- A 200 response whose first chunk write raises `IOError`. -/
def envC1b : DlEnv :=
  { status := 200, connectFail := false, chunks := [.data 5], hasCancel := false,
    cancel := fun _ => false, conn := fun _ => true, writeOk := fun _ => false,
    fileExists0 := false }

/-- A 200 response cancelled at the first chunk. -/
def envC1w : DlEnv :=
  { status := 200, connectFail := false, chunks := [.data 8192], hasCancel := true,
    cancel := fun _ => true, conn := fun _ => true, writeOk := fun _ => true,
    fileExists0 := false }

/-- A 200 response with an empty body and a cancel callback that is
always true: the chunk loop body never runs. -/
def envC4c : DlEnv :=
  { status := 200, connectFail := false, chunks := [], hasCancel := true,
    cancel := fun _ => true, conn := fun _ => true, writeOk := fun _ => true,
    fileExists0 := false }

/-- A 200 response with one 8192-byte chunk and a cancel callback that is
always true. -/
def envC4w : DlEnv :=
  { status := 200, connectFail := false, chunks := [.data 8192], hasCancel := true,
    cancel := fun _ => true, conn := fun _ => true, writeOk := fun _ => true,
    fileExists0 := false }

/-- A clean 27 MB transfer delivered as nine 3,000,000-byte chunks. -/
def envC8c : DlEnv :=
  { status := 200, connectFail := false, chunks := List.replicate 9 (.data 3000000),
    hasCancel := false, cancel := fun _ => false, conn := fun _ => true,
    writeOk := fun _ => true, fileExists0 := false }

/-- A transfer whose very first connectivity probe reports disconnected. -/
def envC8w : DlEnv :=
  { status := 200, connectFail := false, chunks := [.data 8192], hasCancel := false,
    cancel := fun _ => false, conn := fun _ => false, writeOk := fun _ => true,
    fileExists0 := false }

/-- Transport for the retry scenario: `ConnectionError` on the first three
GETs, a 200 reply on the fourth. -/
def trC2 : Nat → HttpReply :=
  fun k => if k < 3 then .connFailure else .reply 200 "body"

/-- A capability document with two `Layer`/`Name` entries carrying the
identical name `A` at different nesting depths. -/
def sampleCaps : Xml :=
  .mk "WMS_Capabilities" ""
    (.cons
      (.mk "Capability" ""
        (.cons
          (.mk "Layer" ""
            (.cons (.mk "Name" "A" .nil)
              (.cons
                (.mk "Layer" ""
                  (.cons (.mk "Name" "A" .nil) .nil))
                .nil)))
          .nil))
      .nil)

/-! ## Lemmas about the retry engine -/

/-- The loop of `get_request` performs at most `fuel` GET attempts. -/
theorem getLoop_attempts_le (conn : Nat → Bool) (tr : Nat → HttpReply) :
    ∀ (fuel k : Nat), (getLoop conn tr k fuel).attemptsMade ≤ fuel := by
  intro fuel
  induction fuel with
  | zero => intro k; simp [getLoop]
  | succ f ih =>
    intro k
    simp only [getLoop]
    by_cases hc : conn k = false
    · simp [hc]
    · simp only [hc, if_false]
      cases tr k with
      | reply s b => by_cases hs : s = 200 <;> simp [hs]
      | connFailure => simpa using Nat.succ_le_succ (ih (k + 1))

/-- C2: `get(params, url, max_attempts)` performs up to `max_attempts + 1`
total GET attempts; with `max_attempts = 3` and a transport that raises a
connection failure on exactly the first three attempts and replies 200 on
the fourth, `get` returns success carrying the response body (after four
attempts). -/
theorem get_request_attempt_budget :
    (∀ (conn : Nat → Bool) (tr : Nat → HttpReply) (ma : Nat),
        (get_request conn tr ma).attemptsMade ≤ ma + 1)
    ∧ (get_request (fun _ => true) trC2 3).outcome = ReqOutcome.success "body"
    ∧ (get_request (fun _ => true) trC2 3).attemptsMade = 4 := by
  refine ⟨fun conn tr ma => getLoop_attempts_le conn tr (ma + 1) 0, by decide, by decide⟩

/-- C3: when the prober reports connected and the transport completes the
exchange with a non-200 status, `get` fails with an outcome naming that
status after exactly one attempt, with no retry and no backoff sleep. -/
theorem get_request_no_retry_status (conn : Nat → Bool) (tr : Nat → HttpReply)
    (ma s : Nat) (b : String) (hc : conn 0 = true) (ht : tr 0 = HttpReply.reply s b)
    (hs : s ≠ 200) :
    (get_request conn tr ma).outcome = ReqOutcome.errStatus s ∧
      (get_request conn tr ma).attemptsMade = 1 ∧
      (get_request conn tr ma).sleeps = 0 := by
  unfold get_request
  simp [getLoop, hc, ht, hs]

/-- Witness for C3 at status 500 with a transport that always replies 500. -/
theorem get_request_no_retry_status_witness :
    (get_request (fun _ => true) (fun _ => HttpReply.reply 500 "err") 3).outcome
        = ReqOutcome.errStatus 500 ∧
      (get_request (fun _ => true) (fun _ => HttpReply.reply 500 "err") 3).attemptsMade = 1 ∧
      (get_request (fun _ => true) (fun _ => HttpReply.reply 500 "err") 3).sleeps = 0 :=
  get_request_no_retry_status (fun _ => true) (fun _ => HttpReply.reply 500 "err")
    3 500 "err" rfl rfl (by decide)

/-! ## Lemmas about the downloader loop -/

/-- Step equation: empty stream. -/
theorem dlLoop_nil (env : DlEnv) (k d fb : Nat) (tr : List (Nat × Bool)) :
    dlLoop env [] k d fb tr =
      { reason := .ok, fileExists := true, fileBytes := fb, downloaded := d, trace := tr } := by
  simp [dlLoop]

/-- Step equation: transport error while fetching the next chunk. -/
theorem dlLoop_err (env : DlEnv) (rest : List Chunk) (k d fb : Nat) (tr : List (Nat × Bool)) :
    dlLoop env (Chunk.streamErr :: rest) k d fb tr =
      { reason := .interrupted, fileExists := false, fileBytes := 0, downloaded := d,
        trace := tr } := by
  simp [dlLoop]

/-- Step equation: the cancel callback fires. -/
theorem dlLoop_data_cancel (env : DlEnv) (n : Nat) (rest : List Chunk) (k d fb : Nat)
    (tr : List (Nat × Bool)) (hcan : (env.hasCancel && env.cancel k) = true) :
    dlLoop env (Chunk.data n :: rest) k d fb tr =
      { reason := .cancelled, fileExists := false, fileBytes := 0, downloaded := d,
        trace := tr } := by
  simp [dlLoop, hcan]

/-- Step equation: probe fires and reports disconnected. -/
theorem dlLoop_data_probe_fail (env : DlEnv) (n : Nat) (rest : List Chunk) (k d fb : Nat)
    (tr : List (Nat × Bool)) (hcan : (env.hasCancel && env.cancel k) ≠ true)
    (hpr : (decide (d % 10000000 = 0) && !env.conn k) = true) :
    dlLoop env (Chunk.data n :: rest) k d fb tr =
      { reason := .interrupted, fileExists := false, fileBytes := 0, downloaded := d,
        trace := tr ++ [(d, decide (d % 10000000 = 0))] } := by
  simp [dlLoop, hcan, hpr]

/-- Step equation: the write raises `IOError`. -/
theorem dlLoop_data_write_fail (env : DlEnv) (n : Nat) (rest : List Chunk) (k d fb : Nat)
    (tr : List (Nat × Bool)) (hcan : (env.hasCancel && env.cancel k) ≠ true)
    (hpr : (decide (d % 10000000 = 0) && !env.conn k) ≠ true)
    (hw : env.writeOk k = false) :
    dlLoop env (Chunk.data n :: rest) k d fb tr =
      { reason := .writeError, fileExists := true, fileBytes := fb, downloaded := d,
        trace := tr ++ [(d, decide (d % 10000000 = 0))] } := by
  simp [dlLoop, hcan, hpr, hw]

/-- Step equation: a chunk is written and the loop continues. -/
theorem dlLoop_data_step (env : DlEnv) (n : Nat) (rest : List Chunk) (k d fb : Nat)
    (tr : List (Nat × Bool)) (hcan : (env.hasCancel && env.cancel k) ≠ true)
    (hpr : (decide (d % 10000000 = 0) && !env.conn k) ≠ true)
    (hw : env.writeOk k ≠ false) :
    dlLoop env (Chunk.data n :: rest) k d fb tr =
      dlLoop env rest (k + 1) (d + n) (fb + n) (tr ++ [(d, decide (d % 10000000 = 0))]) := by
  simp [dlLoop, hcan, hpr, hw]

/-- Invariant of the chunk loop: (1) a `cancelled` or `interrupted` exit
always ran `_cleanup_file`, so no file remains; (2) the loop never exits
with `notFound`; (3) every trace entry records a probe exactly at a
`downloaded` value that is a multiple of 10,000,000. -/
theorem dlLoop_inv (env : DlEnv) :
    ∀ (cs : List Chunk) (k d fb : Nat) (tr : List (Nat × Bool)),
      ((dlLoop env cs k d fb tr).reason = DlStatus.cancelled ∨
          (dlLoop env cs k d fb tr).reason = DlStatus.interrupted →
        (dlLoop env cs k d fb tr).fileExists = false)
      ∧ (dlLoop env cs k d fb tr).reason ≠ DlStatus.notFound
      ∧ ((∀ e ∈ tr, e.2 = decide (e.1 % 10000000 = 0)) →
          ∀ e ∈ (dlLoop env cs k d fb tr).trace, e.2 = decide (e.1 % 10000000 = 0)) := by
  intro cs
  induction cs with
  | nil =>
    intro k d fb tr
    rw [dlLoop_nil]
    exact ⟨fun h => by simp at h, by simp, fun h => h⟩
  | cons c rest ih =>
    intro k d fb tr
    cases c with
    | streamErr =>
      rw [dlLoop_err]
      exact ⟨fun _ => rfl, by simp, fun h => h⟩
    | data n =>
      by_cases hcan : (env.hasCancel && env.cancel k) = true
      · rw [dlLoop_data_cancel env n rest k d fb tr hcan]
        exact ⟨fun _ => rfl, by simp, fun h => h⟩
      · have htr : (∀ e ∈ tr, e.2 = decide (e.1 % 10000000 = 0)) →
            ∀ e ∈ tr ++ [(d, decide (d % 10000000 = 0))], e.2 = decide (e.1 % 10000000 = 0) := by
          intro h e he
          rcases List.mem_append.mp he with he | he
          · exact h e he
          · simp at he
            simp [he]
        by_cases hpr : (decide (d % 10000000 = 0) && !env.conn k) = true
        · rw [dlLoop_data_probe_fail env n rest k d fb tr hcan hpr]
          exact ⟨fun _ => rfl, by simp, htr⟩
        · by_cases hw : env.writeOk k = false
          · rw [dlLoop_data_write_fail env n rest k d fb tr hcan hpr hw]
            refine ⟨fun h => ?_, by simp, htr⟩
            rcases h with h | h <;> simp at h
          · rw [dlLoop_data_step env n rest k d fb tr hcan hpr hw]
            refine ⟨(ih (k + 1) (d + n) (fb + n) _).1, (ih (k + 1) (d + n) (fb + n) _).2.1,
              fun h => (ih (k + 1) (d + n) (fb + n) _).2.2 (htr h)⟩

/-- Cleanup behaviour of a whole `download_file` call: `cancelled` and
`interrupted` failures remove the file at the destination path, while a
`notFound` (404) exit leaves the filesystem untouched. -/
theorem download_cleanup_core (env : DlEnv) :
    ((download_file env).reason = DlStatus.cancelled ∨
        (download_file env).reason = DlStatus.interrupted →
      (download_file env).fileExists = false)
    ∧ ((download_file env).reason = DlStatus.notFound →
      (download_file env).fileExists = env.fileExists0) := by
  unfold download_file
  by_cases hcf : env.connectFail = true
  · simp [hcf]
  · by_cases h404 : env.status = 404
    · simp [hcf, h404]
    · simp only [hcf, h404, if_false, Bool.false_eq_true]
      exact ⟨(dlLoop_inv env env.chunks 0 0 0 []).1,
        fun h => absurd h (dlLoop_inv env env.chunks 0 0 0 []).2.1⟩

/-- Counterexample to C1 as stated: two failing `download_file` runs leave a
file at the destination path.  In `envC1a` the response is a 404 while a
file already sits at the path: the code returns without touching the
filesystem, so the file is still there.  In `envC1b` the first chunk write
raises `IOError`: the `IOError` handler returns without cleanup, so the
file created by `open(path, 'wb')` remains. -/
theorem download_failure_keeps_file_cex :
    ((download_file envC1a).success = false ∧ (download_file envC1a).fileExists = true)
    ∧ ((download_file envC1b).success = false ∧ (download_file envC1b).fileExists = true) := by
  decide

/-- C1 (amended): for the enumerated failure modes, `download_file` leaves
no file of its own at the destination path: a `cancelled` or `interrupted`
failure (cancellation mid-stream, probe disconnect, connection-level or
chunked-encoding transport error) removes the partial file unconditionally,
and a 404 leaves the filesystem exactly as it was before the call (so the
path exists afterwards only if a file already existed there).  A
`writeError` (`IOError`) failure is outside this guarantee. -/
theorem download_failure_cleanup (env : DlEnv) :
    ((download_file env).reason = DlStatus.cancelled ∨
        (download_file env).reason = DlStatus.interrupted →
      (download_file env).fileExists = false)
    ∧ ((download_file env).reason = DlStatus.notFound →
      (download_file env).fileExists = env.fileExists0) :=
  download_cleanup_core env

/-- Witness for C1 (amended): a cancelled run removes the partial file. -/
theorem download_failure_cleanup_witness :
    (download_file envC1w).fileExists = false :=
  (download_failure_cleanup envC1w).1 (Or.inl (by decide))

/-- Counterexample to C4 as stated: with a cancel callback that is
constantly true but a streamed body with zero chunks, the loop body never
runs, the callback is never consulted, and the download succeeds (leaving
an empty file at the path) instead of returning a cancelled failure. -/
theorem download_cancel_zero_chunks_cex :
    envC4c.hasCancel = true ∧ envC4c.cancel = (fun _ => true) ∧ envC4c.status ≠ 404 ∧
      envC4c.chunks = [] ∧
      (download_file envC4c).success = true ∧
      (download_file envC4c).reason ≠ DlStatus.cancelled ∧
      (download_file envC4c).fileExists = true := by
  exact ⟨rfl, rfl, by decide, rfl, by decide, by decide, by decide⟩

/-- C4 (amended): with a cancel callback that returns true from the start,
a streamed response with status other than 404 whose body yields at least
one chunk, and a streamed GET that itself succeeds, `download_file`
returns the cancelled failure with zero bytes downloaded and nothing left
at the destination path.  (With a zero-chunk body the loop never runs and
the call succeeds instead.) -/
theorem download_cancel_first_chunk (env : DlEnv) (n : Nat) (rest : List Chunk)
    (hcf : env.connectFail = false) (h404 : env.status ≠ 404)
    (hch : env.chunks = Chunk.data n :: rest)
    (hhc : env.hasCancel = true) (hca : ∀ k, env.cancel k = true) :
    (download_file env).reason = DlStatus.cancelled ∧
      (download_file env).downloaded = 0 ∧
      (download_file env).fileExists = false := by
  unfold download_file
  rw [hcf, hch]
  simp only [Bool.false_eq_true, if_false, h404, if_false]
  rw [dlLoop_data_cancel env n rest 0 0 0 [] (by simp [hhc, hca 0])]
  exact ⟨rfl, rfl, rfl⟩

/-- Witness for C4 (amended): one 8192-byte chunk, cancel always true. -/
theorem download_cancel_first_chunk_witness :
    (download_file envC4w).reason = DlStatus.cancelled ∧
      (download_file envC4w).downloaded = 0 ∧
      (download_file envC4w).fileExists = false :=
  download_cancel_first_chunk envC4w 8192 [] rfl (by decide) rfl rfl (fun _ => rfl)

/-- Counterexample to C8 as stated: the probe does not recur at 10 MB
intervals throughout a transfer.  `envC8c` downloads 27,000,000 bytes in
nine 3,000,000-byte chunks; the running byte count is a multiple of
10,000,000 only at the initial 0, so the prober runs exactly once even
though the transfer crosses the 10 MB and 20 MB marks. -/
theorem download_probe_interval_cex :
    (download_file envC8c).downloaded = 27000000 ∧
      (download_file envC8c).reason = DlStatus.ok ∧
      ((download_file envC8c).trace.filter (fun e => e.2)).length = 1 := by
  decide

/-- C8 (amended): before writing each chunk, the prober is re-invoked
exactly when the running downloaded-byte count is an exact multiple of
10,000,000 (including the initial 0) — the trace records, per iteration
that reaches the probe decision, the byte count and whether the probe ran,
and the probe flag is set precisely on multiples of 10,000,000; whenever a
download ends `interrupted` (in particular when a probe reported
disconnected), the partial file was removed and the outcome is failure.
The probe therefore does not recur at fixed 10 MB intervals: it fires only
when the byte count lands exactly on a multiple of 10,000,000. -/
theorem download_probe_multiples (env : DlEnv) :
    (∀ e ∈ (download_file env).trace, e.2 = decide (e.1 % 10000000 = 0))
    ∧ ((download_file env).reason = DlStatus.interrupted →
        (download_file env).fileExists = false ∧ (download_file env).success = false) := by
  constructor
  · unfold download_file
    by_cases hcf : env.connectFail = true
    · simp [hcf]
    · by_cases h404 : env.status = 404
      · simp [hcf, h404]
      · simp only [hcf, h404, if_false, Bool.false_eq_true]
        exact (dlLoop_inv env env.chunks 0 0 0 []).2.2 (by simp)
  · intro h
    refine ⟨(download_cleanup_core env).1 (Or.inr h), ?_⟩
    simp [DlResult.success, h]

/-- Witness for C8 (amended): a run whose first probe reports disconnected
ends interrupted, with the partial file removed and a failure outcome. -/
theorem download_probe_multiples_witness :
    (download_file envC8w).fileExists = false ∧ (download_file envC8w).success = false :=
  (download_probe_multiples envC8w).2 (by decide)

/-! ## Lemmas about the string helpers -/

/-- Character containment distributes over list append. -/
theorem listContains_append (c : Char) (l₁ l₂ : List Char) :
    (l₁ ++ l₂).contains c = (l₁.contains c || l₂.contains c) := by
  induction l₁ with
  | nil => simp
  | cons a t ih => simp [List.contains_cons, ih, Bool.or_assoc]

/-- Character containment distributes over string append. -/
theorem strHasChar_append (c : Char) (a b : String) :
    strHasChar c (a ++ b) = (strHasChar c a || strHasChar c b) := by
  unfold strHasChar
  rw [show (a ++ b).toList = a.toList ++ b.toList from rfl, listContains_append]

/-- Replacing `=` by `_` leaves no `=` in a character list. -/
theorem mapEq_no_eq (l : List Char) :
    (l.map (fun c => if c = '=' then '_' else c)).contains '=' = false := by
  induction l with
  | nil => rfl
  | cons a t ih =>
    simp only [List.map_cons, List.contains_cons, Bool.or_eq_false_iff]
    refine ⟨?_, ih⟩
    by_cases h : a = '='
    · rw [if_pos h]; decide
    · rw [if_neg h]
      exact beq_eq_false_iff_ne.mpr (fun hh => h hh.symm)

/-- `replaceEq` leaves no `=` in its output. -/
theorem replaceEq_no_eq (s : String) : strHasChar '=' (replaceEq s) = false :=
  mapEq_no_eq s.toList

/-- When the final URL segment contains `?`, the baseline filename is the
`=`-cleaned part after `?` with `.zip` appended. -/
theorem baselineName_query (url : String)
    (hq : strHasChar '?' ((pySegs url).getLastD "") = true) :
    baselineName url = replaceEq (afterQuery ((pySegs url).getLastD "")) ++ ".zip" := by
  unfold baselineName
  rw [if_pos hq]

/-- Any `=`-free literal prefixed to the query-derived baseline gives a
filename ending in `.zip` with no `=`. -/
theorem zipShape (url pre : String)
    (hq : strHasChar '?' ((pySegs url).getLastD "") = true)
    (hpre : strHasChar '=' pre = false) :
    (∃ p, pre ++ baselineName url = p ++ ".zip") ∧
      strHasChar '=' (pre ++ baselineName url) = false := by
  rw [baselineName_query url hq]
  constructor
  · exact ⟨pre ++ replaceEq (afterQuery ((pySegs url).getLastD "")),
      (String.append_assoc _ _ _).symm⟩
  · rw [strHasChar_append, strHasChar_append, hpre, replaceEq_no_eq]
    decide

/-! ## Claims about the filename classifier -/

/-- Counterexample to C5 as stated: the classifier is not total.  The URL
`"bdoo"` contains the substring `bdoo` but splits into a single segment, so
`url.split('/')[4]` raises `IndexError` (modelled as `none`): no filename
is returned. -/
theorem classifier_total_cex :
    containsSub "bdoo" "bdoo" = true ∧ generate_filename "bdoo" = none := by
  decide

/-- C5 (amended): the classifier is a deterministic, side-effect-free
function (it is a pure Lean function of the URL), and it is total on every
URL with at least six `/`-delimited segments — every positional index a
rule can demand is then in range and a filename is always returned.  On
URLs matching the `Archiwum`+`bdot10k`, `bdoo`, or
`ZestawieniaZbiorczeEGiB` rules with fewer segments than the rule's index,
it fails with an index error instead. -/
theorem classifier_total_six (url : String) (h : 6 ≤ (pySegs url).length) :
    (generate_filename url).isSome = true := by
  obtain ⟨s5, hs5⟩ : ∃ s, (pySegs url)[5]? = some s :=
    ⟨_, List.getElem?_eq_getElem (by omega)⟩
  obtain ⟨s4, hs4⟩ : ∃ s, (pySegs url)[4]? = some s :=
    ⟨_, List.getElem?_eq_getElem (by omega)⟩
  unfold generate_filename
  by_cases hb : containsSub url "Budynki3D" = true
  · rw [if_pos hb]
    by_cases h9 : (pySegs url).length = 9
    · obtain ⟨s6, hs6⟩ : ∃ s, (pySegs url)[6]? = some s :=
        ⟨_, List.getElem?_eq_getElem (by omega)⟩
      rw [if_pos h9, hs6]
      rfl
    · rw [if_neg h9]
      rfl
  · rw [if_neg hb]
    by_cases hp : containsSub url "PRG" = true
    · rw [if_pos hp]
      rfl
    · rw [if_neg hp]
      by_cases hbd : (containsSub url "bdot10k" && !containsSub url "Archiwum") = true
      · rw [if_pos hbd]
        rfl
      · rw [if_neg hbd]
        by_cases har : (containsSub url "Archiwum" && containsSub url "bdot10k") = true
        · rw [if_pos har, hs5]
          rfl
        · rw [if_neg har]
          by_cases hbo : containsSub url "bdoo" = true
          · rw [if_pos hbo, hs4]
            rfl
          · rw [if_neg hbo]
            by_cases hz : containsSub url "ZestawieniaZbiorczeEGiB" = true
            · rw [if_pos hz, hs4]
              rfl
            · rw [if_neg hz]
              by_cases ho : containsSub url "osnowa" = true
              · rw [if_pos ho]
                rfl
              · rw [if_neg ho]
                rfl

/-- Witness for C5 (amended): a six-segment `bdoo` URL classifies fine. -/
theorem classifier_total_six_witness :
    (generate_filename "bdoo/b/c/d/e/f").isSome = true :=
  classifier_total_six "bdoo/b/c/d/e/f" (by decide)

/-- Counterexample to C6 as stated: a URL containing both `bdot10k` and
`Archiwum` is not always classified by the Archiwum branch.  If it also
contains `PRG`, the earlier `PRG` rule consumes the chain
(`"PRG/Archiwum/bdot10k/d/e/f"` gets `PRG_f`); and with both substrings but
fewer than six segments the Archiwum branch raises `IndexError` instead of
producing a filename. -/
theorem archiwum_over_bdot10k_cex :
    (containsSub "PRG/Archiwum/bdot10k/d/e/f" "bdot10k" = true ∧
      containsSub "PRG/Archiwum/bdot10k/d/e/f" "Archiwum" = true ∧
      generate_filename "PRG/Archiwum/bdot10k/d/e/f" = some "PRG_f")
    ∧ (containsSub "Archiwum/bdot10k" "bdot10k" = true ∧
      containsSub "Archiwum/bdot10k" "Archiwum" = true ∧
      generate_filename "Archiwum/bdot10k" = none) := by
  decide

/-- C6 (amended): for every URL containing both `bdot10k` and `Archiwum`,
containing neither `Budynki3D` nor `PRG` (which sit earlier in the rule
chain), and with segment index 5 in range, the classifier takes the
Archiwum branch: `archiwalne_bdot10k_<segment5>_` prefixed to the baseline
name — in particular not the plain `bdot10k_` branch. -/
theorem archiwum_over_bdot10k (url seg5 : String)
    (h1 : containsSub url "Budynki3D" = false)
    (h2 : containsSub url "PRG" = false)
    (h3 : containsSub url "bdot10k" = true)
    (h4 : containsSub url "Archiwum" = true)
    (h5 : (pySegs url)[5]? = some seg5) :
    generate_filename url =
      some ("archiwalne_bdot10k_" ++ seg5 ++ "_" ++ baselineName url) := by
  unfold generate_filename
  rw [if_neg (by simp [h1]), if_neg (by simp [h2]), if_neg (by simp [h4]),
    if_pos (by simp [h3, h4]), h5]

/-- Witness for C6 (amended): a six-segment Archiwum+bdot10k URL. -/
theorem archiwum_over_bdot10k_witness :
    generate_filename "Archiwum/bdot10k/c/d/e/f.zip" =
      some ("archiwalne_bdot10k_" ++ "f.zip" ++ "_" ++
        baselineName "Archiwum/bdot10k/c/d/e/f.zip") :=
  archiwum_over_bdot10k "Archiwum/bdot10k/c/d/e/f.zip" "f.zip"
    (by decide) (by decide) (by decide) (by decide) (by decide)

/-- Counterexample to C7 as stated.  First: in `"a?b=1/c"` the `?` sits
before the last `/`, so the baseline rule never fires and the classified
name `"c"` does not end in `.zip`.  Second: in `"bdoo/b/c/d/x=1/q?z"` the
`bdoo` rule splices URL segment 4 (`"x=1"`) into the name, so the result
`"bdoo_rokx=1_z.zip"` contains `=`. -/
theorem classifier_query_zip_cex :
    (strHasChar '?' "a?b=1/c" = true ∧ generate_filename "a?b=1/c" = some "c" ∧
      ¬∃ p : String, "c" = p ++ ".zip")
    ∧ (strHasChar '?' "bdoo/b/c/d/x=1/q?z" = true ∧
      generate_filename "bdoo/b/c/d/x=1/q?z" = some "bdoo_rokx=1_z.zip" ∧
      strHasChar '=' "bdoo_rokx=1_z.zip" = true) := by
  refine ⟨⟨by decide, by decide, ?_⟩, by decide, by decide, by decide⟩
  rintro ⟨p, hp⟩
  have hlen := congrArg String.length hp
  rw [String.length_append] at hlen
  rw [show ".zip".length = 4 from rfl] at hlen
  rw [show "c".length = 1 from rfl] at hlen
  omega

/-- C7 (amended): for every URL whose final `/`-delimited segment contains
a `?`, and which contains none of the substrings `Budynki3D`, `Archiwum`,
`bdoo`, `ZestawieniaZbiorczeEGiB` (the rules that splice raw URL segments
into the name), the classifier succeeds and the filename ends in `.zip`
and contains no `=` characters. -/
theorem classifier_query_zip (url : String)
    (hq : strHasChar '?' ((pySegs url).getLastD "") = true)
    (h1 : containsSub url "Budynki3D" = false)
    (h2 : containsSub url "Archiwum" = false)
    (h3 : containsSub url "bdoo" = false)
    (h4 : containsSub url "ZestawieniaZbiorczeEGiB" = false) :
    ∃ fn, generate_filename url = some fn ∧
      (∃ p, fn = p ++ ".zip") ∧ strHasChar '=' fn = false := by
  unfold generate_filename
  rw [if_neg (by simp [h1])]
  by_cases hp : containsSub url "PRG" = true
  · rw [if_pos hp]
    exact ⟨_, rfl, zipShape url "PRG_" hq (by decide)⟩
  · rw [if_neg hp]
    by_cases hbd : containsSub url "bdot10k" = true
    · rw [if_pos (by simp [hbd, h2])]
      exact ⟨_, rfl, zipShape url "bdot10k_" hq (by decide)⟩
    · rw [if_neg (by simp [hbd]), if_neg (by simp [h2]), if_neg (by simp [h3]),
        if_neg (by simp [h4])]
      by_cases ho : containsSub url "osnowa" = true
      · rw [if_pos ho]
        exact ⟨_, rfl, zipShape url "podstawowa_osnowa_" hq (by decide)⟩
      · rw [if_neg ho]
        exact ⟨_, rfl, zipShape url "" hq (by decide)⟩

/-- Witness for C7 (amended): `"PRG/data/file?id=7"` classifies to a
`.zip` name without `=`. -/
theorem classifier_query_zip_witness :
    ∃ fn, generate_filename "PRG/data/file?id=7" = some fn ∧
      (∃ p, fn = p ++ ".zip") ∧ strHasChar '=' fn = false :=
  classifier_query_zip "PRG/data/file?id=7"
    (by decide) (by decide) (by decide) (by decide) (by decide)

/-- C10: for every URL containing `Budynki3D` but neither `LOD1` nor
`LOD2`, and not having exactly 9 `/`-delimited segments, the classifier
returns the baseline filename with no prefix at all — matching the
Budynki3D rule consumes the `elif` chain and suppresses every
lower-priority prefix rule (`PRG`, `bdot10k`, `bdoo`,
`ZestawieniaZbiorczeEGiB`, `osnowa`). -/
theorem budynki_consumes_chain (url : String)
    (h1 : containsSub url "Budynki3D" = true)
    (h2 : containsSub url "LOD1" = false)
    (h3 : containsSub url "LOD2" = false)
    (h4 : (pySegs url).length ≠ 9) :
    generate_filename url = some (baselineName url) := by
  unfold generate_filename
  rw [if_pos h1, if_neg h4]
  unfold budynkiName
  rw [if_neg (by simp [h2]), if_neg (by simp [h3])]

/-- Witness for C10: a URL that also contains `PRG`, `bdot10k`, `bdoo`,
`osnowa` and `ZestawieniaZbiorczeEGiB` still gets the bare baseline name. -/
theorem budynki_consumes_chain_witness :
    containsSub "Budynki3D/PRG/bdot10k/bdoo/osnowa/ZestawieniaZbiorczeEGiB/x.zip" "PRG" = true ∧
      generate_filename "Budynki3D/PRG/bdot10k/bdoo/osnowa/ZestawieniaZbiorczeEGiB/x.zip" =
        some (baselineName "Budynki3D/PRG/bdot10k/bdoo/osnowa/ZestawieniaZbiorczeEGiB/x.zip") :=
  ⟨by decide,
    budynki_consumes_chain "Budynki3D/PRG/bdot10k/bdoo/osnowa/ZestawieniaZbiorczeEGiB/x.zip"
      (by decide) (by decide) (by decide) (by decide)⟩

/-! ## Lemmas about deduplication -/

/-- Membership in `dedupFrom`: exactly the list elements not in `seen`. -/
theorem mem_dedupFrom (a : String) (l : List String) :
    ∀ seen, a ∈ dedupFrom seen l ↔ a ∈ l ∧ a ∉ seen := by
  induction l with
  | nil => intro seen; simp [dedupFrom]
  | cons x xs ih =>
    intro seen
    by_cases hx : x ∈ seen
    · rw [dedupFrom, if_pos hx, ih seen]
      constructor
      · rintro ⟨h1, h2⟩
        exact ⟨List.mem_cons_of_mem x h1, h2⟩
      · rintro ⟨h1, h2⟩
        rcases List.mem_cons.mp h1 with rfl | h1
        · exact absurd hx h2
        · exact ⟨h1, h2⟩
    · rw [dedupFrom, if_neg hx]
      constructor
      · intro hmem
        rcases List.mem_cons.mp hmem with rfl | hmem
        · exact ⟨List.mem_cons_self a xs, hx⟩
        · obtain ⟨h1, h2⟩ := (ih (x :: seen)).mp hmem
          exact ⟨List.mem_cons_of_mem x h1, fun hs => h2 (List.mem_cons_of_mem x hs)⟩
      · rintro ⟨h1, h2⟩
        rcases List.mem_cons.mp h1 with rfl | h1
        · exact List.mem_cons_self a _
        · by_cases hax : a = x
          · subst hax; exact List.mem_cons_self a _
          · exact List.mem_cons_of_mem x
              ((ih (x :: seen)).mpr ⟨h1, fun hs => by
                rcases List.mem_cons.mp hs with h | h
                · exact hax h
                · exact h2 h⟩)

/-- `dedupFrom` is an order-preserving selection from its input. -/
theorem dedupFrom_sub (l : List String) :
    ∀ seen, List.Sublist (dedupFrom seen l) l := by
  induction l with
  | nil => intro seen; simp [dedupFrom]
  | cons x xs ih =>
    intro seen
    by_cases hx : x ∈ seen
    · rw [dedupFrom, if_pos hx]
      exact List.Sublist.cons x (ih seen)
    · rw [dedupFrom, if_neg hx]
      exact List.Sublist.cons₂ x (ih (x :: seen))

/-- `dedupFrom` returns a duplicate-free list. -/
theorem dedupFrom_nodup (l : List String) :
    ∀ seen, (dedupFrom seen l).Nodup := by
  induction l with
  | nil => intro seen; simp [dedupFrom]
  | cons x xs ih =>
    intro seen
    by_cases hx : x ∈ seen
    · rw [dedupFrom, if_pos hx]
      exact ih seen
    · rw [dedupFrom, if_neg hx, List.nodup_cons]
      exact ⟨fun hmem => ((mem_dedupFrom x xs (x :: seen)).mp hmem).2
        (List.mem_cons_self x seen), ih (x :: seen)⟩

/-- The recursive `dedupFrom` agrees with the spec-side left fold, for any
accumulator and seen-set holding the same elements. -/
theorem dedupFrom_eq_foldl (l : List String) :
    ∀ (acc seen : List String), (∀ a, a ∈ acc ↔ a ∈ seen) →
      l.foldl (fun acc x => if x ∈ acc then acc else acc ++ [x]) acc =
        acc ++ dedupFrom seen l := by
  induction l with
  | nil => intro acc seen _; simp [dedupFrom]
  | cons x xs ih =>
    intro acc seen hiff
    rw [List.foldl_cons, dedupFrom]
    by_cases hx : x ∈ seen
    · rw [if_pos ((hiff x).mpr hx), if_pos hx]
      exact ih acc seen hiff
    · rw [if_neg (fun hacc => hx ((hiff x).mp hacc)), if_neg hx]
      rw [ih (acc ++ [x]) (x :: seen) (fun a => by
        simp [List.mem_append, List.mem_cons, hiff a, or_comm])]
      simp

/-! ## Claim about the layer extractor -/

/-- C9: the layer extractor returns the non-empty `Name` values in
document order with duplicates removed keeping the first occurrence: it
equals the spec-side first-occurrence deduplication of the collected
names, is duplicate-free, and is an order-preserving selection of the
collected names; and a capability document with two `Layer`/`Name`
entries carrying the identical name `A` at different nesting depths
yields exactly `["A"]`. -/
theorem wms_layers_dedup_first :
    (∀ doc : Xml,
      get_wms_layers doc = dedupKeepFirst (collectNames doc) ∧
        (get_wms_layers doc).Nodup ∧
        List.Sublist (get_wms_layers doc) (collectNames doc)) ∧
      get_wms_layers sampleCaps = ["A"] := by
  refine ⟨fun doc => ⟨?_, dedupFrom_nodup (collectNames doc) [],
    dedupFrom_sub (collectNames doc) []⟩, by decide⟩
  rw [get_wms_layers, dedupKeepFirst,
    dedupFrom_eq_foldl (collectNames doc) [] [] (fun a => Iff.rfl)]
  simp

end Gugik
